import Mathlib

/-!
Verification development for `app/database/models/ms_schema/user.py`
(bridge-in-tech-backend): the `UserModel` SQLAlchemy entity.

The Python file declares a persisted table of users with unique
`username` and `email` columns, a stored `password_hash`, three
relationships (`background`, `organization`, `user_extension`), query
helpers and CRUD operations.  We embed the entity, the relevant parts
of the persistence layer (a store of rows with the declared unique
constraints and cascade rules) and the operations, then prove the
spec's testable properties.
-/

namespace BridgeInTech

/-- Modelled from the spec: `PersonalBackgroundModel`
(`app/database/models/bit_schema/personal_background.py`, not in scope).
Only its identity and the foreign key to the owning user matter here:
`user.py` declares `background = db.relationship(..., uselist=False,
cascade="all,delete")`, so each background row is attached to one user. -/
structure PersonalBackgroundModel where
  id : Nat
  user_id : Nat
deriving Repr, DecidableEq

/-- Modelled from the spec: `OrganizationModel`
(`app/database/models/bit_schema/organization.py`, not in scope).
`user.py` declares `organization = db.relationship(OrganizationModel,
backref="user", uselist=False)` with no delete cascade, so the
organization row carries a nullable foreign key `rep_id` to the user it
is associated with ("deleting the User detaches but does not delete the
Organization"). -/
structure OrganizationModel where
  id : Nat
  rep_id : Option Nat
deriving Repr, DecidableEq

/-- Modelled from the spec: `UserExtensionModel`
(`app/database/models/bit_schema/user_extension.py`, not in scope).
As for the background, `user.py` declares the relationship with
`cascade="all,delete"`, so each extension row is attached to one user. -/
structure UserExtensionModel where
  id : Nat
  user_id : Nat
deriving Repr, DecidableEq

/-- The columns of the `users` table, as declared in `UserModel`.
`id` is the surrogate primary key assigned by the database, hence
`Option Nat` (Python `None` before the row is persisted).  Nullable
columns that the constructor does not set are `Option`s; the
constructor-set columns are plain.  `registration_date` is a numeric
timestamp (`db.Float` filled from `time.time()`), embedded as `Nat`. -/
structure UserModel where
  id : Option Nat
  name : String
  username : String
  email : String
  password_hash : String
  registration_date : Nat
  terms_and_conditions_checked : Bool
  is_admin : Bool
  is_email_verified : Bool
  email_verification_date : Option Nat
  current_mentorship_role : Option Int
  membership_status : Option Int
  bio : Option String
  location : Option String
  occupation : Option String
  current_organization : Option String
  slack_username : Option String
  social_media_links : Option String
  skills : Option String
  interests : Option String
  resume_url : Option String
  photo_url : Option String
  need_mentoring : Bool
  available_to_mentor : Bool
deriving Repr, DecidableEq

/-- The persistent store behind `db.session`: the `users` table plus the
three related tables reachable through the relationships declared on
`UserModel`. -/
structure Store where
  users : List UserModel
  backgrounds : List PersonalBackgroundModel
  organizations : List OrganizationModel
  user_extensions : List UserExtensionModel
deriving Repr, DecidableEq

def emptyStore : Store := ⟨[], [], [], []⟩

/-- Modelled from the spec: `werkzeug.security.generate_password_hash`
(external library).  The spec requires only that it is a deterministic
one-way hash: the stored value is derived from the plaintext but is
never the plaintext itself, and `check_password_hash` accepts exactly
the plaintext it was generated from.  We model it as a tagged,
collision-free encoding. -/
def generate_password_hash (password_plain_text : String) : String :=
  "pbkdf2:sha256$" ++ password_plain_text

/-- Modelled from the spec: `werkzeug.security.check_password_hash`
(external library): true iff the hash was generated from this
plaintext. -/
def check_password_hash (pwhash password_plain_text : String) : Bool :=
  pwhash == generate_password_hash password_plain_text

namespace UserModel

/-- Embeds `UserModel.is_empty`: `cls.query.first() is None`. -/
def is_empty (s : Store) : Bool :=
  s.users.isEmpty

/-- Embeds `UserModel.set_password`: `self.password_hash = generate_password_hash(password_plain_text)`. -/
def set_password (u : UserModel) (password_plain_text : String) : UserModel :=
  { u with password_hash := generate_password_hash password_plain_text }

/-- Embeds `UserModel.check_password`: `check_password_hash(self.password_hash, password_plain_text)`. -/
def check_password (u : UserModel) (password_plain_text : String) : Bool :=
  check_password_hash u.password_hash password_plain_text

/-- Embeds `UserModel.__init__(name, username, password, email,
terms_and_conditions_checked)`.  The store is the ambient session state
read by `self.is_empty()`; `now` is the value of `time.time()` at
construction.  Required fields are stored, the password is hashed via
`set_password`, `is_admin` is `True if self.is_empty() else False`,
`is_email_verified`, `need_mentoring` and `available_to_mentor` are
`False`, `registration_date` is `time.time()`.  All other columns stay
unset (`None`). -/
def mk_init (s : Store) (now : Nat) (name username password email : String)
    (terms_and_conditions_checked : Bool) : UserModel :=
  set_password
    { id := none
      name := name
      username := username
      email := email
      password_hash := ""
      registration_date := now
      terms_and_conditions_checked := terms_and_conditions_checked
      is_admin := is_empty s
      is_email_verified := false
      email_verification_date := none
      current_mentorship_role := none
      membership_status := none
      bio := none
      location := none
      occupation := none
      current_organization := none
      slack_username := none
      social_media_links := none
      skills := none
      interests := none
      resume_url := none
      photo_url := none
      need_mentoring := false
      available_to_mentor := false }
    password

end UserModel

/-- A value in the Python dict returned by `UserModel.json()`.  Python's
dict is heterogeneous: values are `None`, numbers, strings, booleans,
or (for the `"current_organization"` key) the related
`OrganizationModel` object itself. -/
inductive JValue where
  | jnull : JValue
  | jnat : Nat → JValue
  | jint : Int → JValue
  | jstr : String → JValue
  | jbool : Bool → JValue
  | jorg : OrganizationModel → JValue
deriving Repr, DecidableEq

def jOptNat : Option Nat → JValue
  | none => .jnull
  | some n => .jnat n

def jOptInt : Option Int → JValue
  | none => .jnull
  | some i => .jint i

def jOptStr : Option String → JValue
  | none => .jnull
  | some s => .jstr s

def jOptOrg : Option OrganizationModel → JValue
  | none => .jnull
  | some o => .jorg o

namespace UserModel

/-- The `organization` relationship of a user: the single
`OrganizationModel` row (if any) whose foreign key points at this
user's primary key (`uselist=False`).  An unpersisted user (`id` is
`None`) has no related row. -/
def organization (u : UserModel) (s : Store) : Option OrganizationModel :=
  match u.id with
  | none => none
  | some i => s.organizations.find? (fun o => o.rep_id == some i)

/-- The `background` relationship of a user (`uselist=False`). -/
def background (u : UserModel) (s : Store) : Option PersonalBackgroundModel :=
  match u.id with
  | none => none
  | some i => s.backgrounds.find? (fun b => b.user_id == i)

/-- The `user_extension` relationship of a user (`uselist=False`). -/
def user_extension (u : UserModel) (s : Store) : Option UserExtensionModel :=
  match u.id with
  | none => none
  | some i => s.user_extensions.find? (fun e => e.user_id == i)

/-- Embeds `UserModel.json()`: the dict literal of `user.py` lines 108-133, in
source order.  Note that the value bound to the key
`"current_organization"` is `self.organization` — the relationship
attribute — not the `current_organization` string column. -/
def json (u : UserModel) (s : Store) : List (String × JValue) :=
  [ ("id", jOptNat u.id),
    ("name", .jstr u.name),
    ("username", .jstr u.username),
    ("password_hash", .jstr u.password_hash),
    ("email", .jstr u.email),
    ("terms_and_conditions_checked", .jbool u.terms_and_conditions_checked),
    ("registration_date", .jnat u.registration_date),
    ("is_admin", .jbool u.is_admin),
    ("is_email_verified", .jbool u.is_email_verified),
    ("email_verification_date", jOptNat u.email_verification_date),
    ("current_mentorship_role", jOptInt u.current_mentorship_role),
    ("membership_status", jOptInt u.membership_status),
    ("bio", jOptStr u.bio),
    ("location", jOptStr u.location),
    ("occupation", jOptStr u.occupation),
    ("current_organization", jOptOrg (u.organization s)),
    ("slack_username", jOptStr u.slack_username),
    ("social_media_links", jOptStr u.social_media_links),
    ("skills", jOptStr u.skills),
    ("interests", jOptStr u.interests),
    ("resume_url", jOptStr u.resume_url),
    ("photo_url", jOptStr u.photo_url),
    ("need_mentoring", .jbool u.need_mentoring),
    ("available_to_mentor", .jbool u.available_to_mentor) ]

/-- Embeds `UserModel.find_by_username`: `cls.query.filter_by(username=username).first()`
— the first row matching, or `None`. -/
def find_by_username (s : Store) (username : String) : Option UserModel :=
  s.users.find? (fun u => u.username == username)

/-- Embeds `UserModel.find_by_email`: `cls.query.filter_by(email=email).first()`. -/
def find_by_email (s : Store) (email : String) : Option UserModel :=
  s.users.find? (fun u => u.email == email)

/-- Embeds `UserModel.find_by_id`: `cls.query.filter_by(id=_id).first()`. -/
def find_by_id (s : Store) (i : Nat) : Option UserModel :=
  s.users.find? (fun u => u.id == some i)

/-- The mapped column attributes declared on `UserModel` (`user.py`
lines 27-63), which are the keyword names `filter_by` accepts. -/
def columns : List String :=
  [ "id", "name", "username", "email", "password_hash",
    "registration_date", "terms_and_conditions_checked", "is_admin",
    "is_email_verified", "email_verification_date",
    "current_mentorship_role", "membership_status", "bio", "location",
    "occupation", "current_organization", "slack_username",
    "social_media_links", "skills", "interests", "resume_url",
    "photo_url", "need_mentoring", "available_to_mentor" ]

/-- The value of a user's mapped column attribute, by name; `none` if
the name is not a declared column. -/
def attr (u : UserModel) (field : String) : Option JValue :=
  if field == "id" then some (jOptNat u.id)
  else if field == "name" then some (.jstr u.name)
  else if field == "username" then some (.jstr u.username)
  else if field == "email" then some (.jstr u.email)
  else if field == "password_hash" then some (.jstr u.password_hash)
  else if field == "registration_date" then some (.jnat u.registration_date)
  else if field == "terms_and_conditions_checked" then some (.jbool u.terms_and_conditions_checked)
  else if field == "is_admin" then some (.jbool u.is_admin)
  else if field == "is_email_verified" then some (.jbool u.is_email_verified)
  else if field == "email_verification_date" then some (jOptNat u.email_verification_date)
  else if field == "current_mentorship_role" then some (jOptInt u.current_mentorship_role)
  else if field == "membership_status" then some (jOptInt u.membership_status)
  else if field == "bio" then some (jOptStr u.bio)
  else if field == "location" then some (jOptStr u.location)
  else if field == "occupation" then some (jOptStr u.occupation)
  else if field == "current_organization" then some (jOptStr u.current_organization)
  else if field == "slack_username" then some (jOptStr u.slack_username)
  else if field == "social_media_links" then some (jOptStr u.social_media_links)
  else if field == "skills" then some (jOptStr u.skills)
  else if field == "interests" then some (jOptStr u.interests)
  else if field == "resume_url" then some (jOptStr u.resume_url)
  else if field == "photo_url" then some (jOptStr u.photo_url)
  else if field == "need_mentoring" then some (.jbool u.need_mentoring)
  else if field == "available_to_mentor" then some (.jbool u.available_to_mentor)
  else (none : Option JValue)

/-- Embeds `cls.query.filter_by(field=value).all()`: the list of rows whose
column `field` equals `value`.  SQLAlchemy raises `InvalidRequestError`
when the keyword is not a mapped attribute of the entity, so querying
an undeclared field is an error, not a result. -/
def filter_by_all (s : Store) (field : String) (value : JValue) :
    Except String (List UserModel) :=
  if field ∈ columns then
    .ok (s.users.filter (fun u => attr u field == some value))
  else
    .error ("InvalidRequestError: entity has no property " ++ field)

/-- Embeds `UserModel.get_all_admins(is_admin=True)`:
`cls.query.filter_by(is_admin=is_admin).all()`. -/
def get_all_admins (s : Store) (is_admin : Bool := true) :
    Except String (List UserModel) :=
  filter_by_all s "is_admin" (.jbool is_admin)

/-- Embeds `UserModel.get_all_representatives(is_company_rep=True)`:
`cls.query.filter_by(is_company_rep=is_company_rep).all()` —
`is_company_rep` is the literal keyword passed to `filter_by`. -/
def get_all_representatives (s : Store) (is_company_rep : Bool := true) :
    Except String (List UserModel) :=
  filter_by_all s "is_company_rep" (.jbool is_company_rep)

end UserModel

/-- The next primary key the database assigns on insert. -/
def Store.nextId (s : Store) : Nat :=
  (s.users.filterMap (fun u => u.id)).foldr max 0 + 1

namespace UserModel

/-- Embeds `UserModel.save_to_db`: `db.session.add(self); db.session.commit()`,
on the insert path for a not-yet-persisted object.  The commit assigns
the primary key and enforces the `unique=True` constraints declared on
the `username` and `email` columns: inserting a row whose username or
email is already present fails (`IntegrityError` propagating from the
database layer) and leaves the store unchanged. -/
def save_to_db (u : UserModel) (s : Store) : Except String Store :=
  if s.users.any (fun v => v.username == u.username || v.email == u.email) then
    .error "IntegrityError: duplicate key value violates unique constraint"
  else
    .ok { s with users := s.users ++ [{ u with id := some s.nextId }] }

/-- Embeds `UserModel.delete_from_db`: `db.session.delete(self);
db.session.commit()` for a persisted user.  Per the relationships
declared on `UserModel`: `background` and `user_extension` have
`cascade="all,delete"`, so their rows are deleted with the user;
`organization` has no delete cascade, so its row survives and its
foreign key to the user is nulled out (de-associated, "which will allow
the organization to appoint a new representative"). -/
def delete_from_db (u : UserModel) (s : Store) : Store :=
  { users := s.users.filter (fun v => v.id != u.id),
    backgrounds := s.backgrounds.filter (fun b => some b.user_id != u.id),
    organizations := s.organizations.map
      (fun o => if o.rep_id == u.id then { o with rep_id := none } else o),
    user_extensions := s.user_extensions.filter (fun e => some e.user_id != u.id) }

end UserModel

/-- Construct a user against the current store and save it; a failed
commit (uniqueness violation) leaves the store unchanged. -/
def applyCreate (s : Store) (now : Nat) (name username password email : String)
    (terms : Bool) : Store :=
  match (UserModel.mk_init s now name username password email terms).save_to_db s with
  | .ok s' => s'
  | .error _ => s

/-- One create request: the constructor arguments plus the clock value. -/
structure CreateInput where
  now : Nat
  name : String
  username : String
  password : String
  email : String
  terms : Bool
deriving Repr, DecidableEq

/-- Run a sequence of create requests and record, in order, the
`is_admin` flag each constructed user receives. -/
def constructedAdmins (s : Store) : List CreateInput → List Bool
  | [] => []
  | c :: cs =>
      (UserModel.mk_init s c.now c.name c.username c.password c.email c.terms).is_admin ::
        constructedAdmins (applyCreate s c.now c.name c.username c.password c.email c.terms) cs

/-- Set the password of the persisted user with primary key `i` and
commit: the in-store row gets `set_password p`. -/
def updatePassword (s : Store) (i : Nat) (p : String) : Store :=
  { s with users :=
      s.users.map (fun u => if u.id == some i then u.set_password p else u) }

/-- Store states reachable from the empty database by the operations
`UserModel` offers: constructing-and-saving a user, resetting a
persisted user's password, and deleting a user. -/
inductive Reach : Store → Prop
  | empty : Reach emptyStore
  | create {s s' : Store} (now : Nat) (name username password email : String)
      (terms : Bool) :
      Reach s →
      (UserModel.mk_init s now name username password email terms).save_to_db s = .ok s' →
      Reach s'
  | setPassword {s : Store} (i : Nat) (p : String) :
      Reach s → Reach (updatePassword s i p)
  | delete {s : Store} (u : UserModel) :
      Reach s → Reach (u.delete_from_db s)

/-! ### Facts about the password hash model -/

theorem generate_password_hash_injective :
    Function.Injective generate_password_hash := by
  intro p q h
  unfold generate_password_hash at h
  have hd : ("pbkdf2:sha256$".data ++ p.data) = ("pbkdf2:sha256$".data ++ q.data) := by
    rw [← String.data_append, ← String.data_append, h]
  exact String.ext (List.append_cancel_left hd)

theorem generate_password_hash_ne_plaintext (p : String) :
    generate_password_hash p ≠ p := by
  intro h
  have hl : (generate_password_hash p).length = p.length := by rw [h]
  unfold generate_password_hash at hl
  rw [String.length_append] at hl
  have h14 : ("pbkdf2:sha256$" : String).length = 14 := rfl
  omega

theorem generate_password_hash_beq_false {p q : String} (h : q ≠ p) :
    (generate_password_hash p == generate_password_hash q) = false := by
  rw [beq_eq_false_iff_ne]
  exact fun he => h (generate_password_hash_injective he).symm

/-! ### The claims -/

/-- C1: after construction with plaintext `p`, or after any later
`set_password` with plaintext `p`, `check_password p` is true and
`check_password q` is false for every `q ≠ p`. -/
theorem check_password_accepts_exactly_set_plaintext
    (p q : String) (hne : q ≠ p) :
    (∀ u : UserModel,
      (u.set_password p).check_password p = true ∧
      (u.set_password p).check_password q = false) ∧
    (∀ (s : Store) (now : Nat) (name username email : String) (terms : Bool),
      (UserModel.mk_init s now name username p email terms).check_password p = true ∧
      (UserModel.mk_init s now name username p email terms).check_password q = false) := by
  constructor
  · intro u
    constructor
    · simp [UserModel.check_password, UserModel.set_password, check_password_hash]
    · simp only [UserModel.check_password, UserModel.set_password, check_password_hash]
      exact generate_password_hash_beq_false hne
  · intro s now name username email terms
    constructor
    · simp [UserModel.check_password, UserModel.mk_init, UserModel.set_password,
        check_password_hash]
    · simp only [UserModel.check_password, UserModel.mk_init, UserModel.set_password,
        check_password_hash]
      exact generate_password_hash_beq_false hne

/-- Witness for C1 at concrete plaintexts. -/
theorem check_password_accepts_exactly_set_plaintext_witness :
    (UserModel.mk_init emptyStore 0 "a" "b" "secret" "c" true).check_password "secret" = true ∧
    (UserModel.mk_init emptyStore 0 "a" "b" "secret" "c" true).check_password "other" = false :=
  (check_password_accepts_exactly_set_plaintext "secret" "other"
      (by decide)).2 emptyStore 0 "a" "b" "c" true

/-- C8: every freshly constructed user has `is_email_verified = false`,
`need_mentoring = false`, `available_to_mentor = false`, and
`registration_date` equal to the clock value at construction. -/
theorem mk_init_default_flags
    (s : Store) (now : Nat) (name username password email : String) (terms : Bool) :
    (UserModel.mk_init s now name username password email terms).is_email_verified = false ∧
    (UserModel.mk_init s now name username password email terms).need_mentoring = false ∧
    (UserModel.mk_init s now name username password email terms).available_to_mentor = false ∧
    (UserModel.mk_init s now name username password email terms).registration_date = now := by
  refine ⟨rfl, rfl, rfl, rfl⟩

/-- C10: `json()` exposes the stored password hash under the key
`"password_hash"`. -/
theorem json_exposes_password_hash (u : UserModel) (s : Store) :
    (u.json s).lookup "password_hash" = some (.jstr u.password_hash) := rfl

/-- C9: `json()` binds the key `"current_organization"` to the
`organization` relationship object (the linked Organization row or
`None`), not to the `current_organization` string column; consequently
the serialized output is unchanged when that column changes. -/
theorem json_current_organization_is_relationship
    (u : UserModel) (s : Store) (v : Option String) :
    (u.json s).lookup "current_organization" = some (jOptOrg (u.organization s)) ∧
    ({ u with current_organization := v } : UserModel).json s = u.json s := by
  exact ⟨rfl, rfl⟩

/-- C5: `get_all_representatives` filters on `is_company_rep`, which is
not a declared attribute of `UserModel`, so every invocation fails with
an `InvalidRequestError` instead of returning a result. -/
theorem get_all_representatives_never_succeeds (s : Store) (b : Bool) :
    "is_company_rep" ∉ UserModel.columns ∧
    UserModel.get_all_representatives s b =
      .error ("InvalidRequestError: entity has no property " ++ "is_company_rep") := by
  exact ⟨by decide, rfl⟩

theorem find_first_of_split {α : Type} (p : α → Bool) (l1 l2 : List α) (u : α)
    (h1 : ∀ v ∈ l1, p v = false) (hu : p u = true) :
    (l1 ++ u :: l2).find? p = some u := by
  induction l1 with
  | nil => simp [List.find?_cons, hu]
  | cons a l ih =>
      have ha : p a = false := h1 a (by simp)
      rw [List.cons_append, List.find?_cons, ha]
      exact ih (fun v hv => h1 v (by simp [hv]))

/-- C6: `find_by_username`, `find_by_email` and `find_by_id` return
`none` when no persisted user matches, and the first matching user when
one exists. -/
theorem find_helpers_none_or_first (s : Store) :
    (∀ un, (∀ u ∈ s.users, u.username ≠ un) → UserModel.find_by_username s un = none) ∧
    (∀ em, (∀ u ∈ s.users, u.email ≠ em) → UserModel.find_by_email s em = none) ∧
    (∀ i, (∀ u ∈ s.users, u.id ≠ some i) → UserModel.find_by_id s i = none) ∧
    (∀ un l1 u l2, s.users = l1 ++ u :: l2 → u.username = un →
      (∀ v ∈ l1, v.username ≠ un) → UserModel.find_by_username s un = some u) ∧
    (∀ em l1 u l2, s.users = l1 ++ u :: l2 → u.email = em →
      (∀ v ∈ l1, v.email ≠ em) → UserModel.find_by_email s em = some u) ∧
    (∀ i l1 u l2, s.users = l1 ++ u :: l2 → u.id = some i →
      (∀ v ∈ l1, v.id ≠ some i) → UserModel.find_by_id s i = some u) := by
  refine ⟨?_, ?_, ?_, ?_, ?_, ?_⟩
  · intro un h
    rw [UserModel.find_by_username, List.find?_eq_none]
    intro u hu
    simpa using h u hu
  · intro em h
    rw [UserModel.find_by_email, List.find?_eq_none]
    intro u hu
    simpa using h u hu
  · intro i h
    rw [UserModel.find_by_id, List.find?_eq_none]
    intro u hu
    simpa using h u hu
  · intro un l1 u l2 hs hu h1
    rw [UserModel.find_by_username, hs]
    exact find_first_of_split _ l1 l2 u
      (fun v hv => by simpa using h1 v hv) (by simpa using hu)
  · intro em l1 u l2 hs hu h1
    rw [UserModel.find_by_email, hs]
    exact find_first_of_split _ l1 l2 u
      (fun v hv => by simpa using h1 v hv) (by simpa using hu)
  · intro i l1 u l2 hs hu h1
    rw [UserModel.find_by_id, hs]
    exact find_first_of_split _ l1 l2 u
      (fun v hv => by simpa using h1 v hv) (by simpa using hu)

def su1 : UserModel :=
  { UserModel.mk_init emptyStore 1 "Alpha" "u1" "p1" "e1@example.com" true with id := some 1 }

def su2 : UserModel :=
  { UserModel.mk_init emptyStore 2 "Beta" "u2" "p2" "e2@example.com" false with id := some 2 }

def sampleStore : Store := ⟨[su1, su2], [], [], []⟩

/-- Witness for C6 on a concrete two-user store. -/
theorem find_helpers_none_or_first_witness :
    (UserModel.find_by_username sampleStore "nobody" = none ∧
     UserModel.find_by_email sampleStore "nobody@example.com" = none ∧
     UserModel.find_by_id sampleStore 99 = none) ∧
    UserModel.find_by_username sampleStore "u2" = some su2 := by
  have h := find_helpers_none_or_first sampleStore
  refine ⟨⟨h.1 "nobody" ?_, h.2.1 "nobody@example.com" ?_, h.2.2.1 99 ?_⟩,
    h.2.2.2.1 "u2" [su1] su2 [] ?_ ?_ ?_⟩
  all_goals decide

theorem save_to_db_ok_users {u : UserModel} {s s' : Store}
    (h : u.save_to_db s = .ok s') :
    s'.users = s.users ++ [{ u with id := some s.nextId }] := by
  unfold UserModel.save_to_db at h
  split at h
  · exact absurd h (by simp)
  · cases h
    rfl

theorem save_to_db_error_guard {u : UserModel} {s s' : Store}
    (h : u.save_to_db s = .ok s') :
    s.users.any (fun v => v.username == u.username || v.email == u.email) = false := by
  unfold UserModel.save_to_db at h
  split at h
  · exact absurd h (by simp)
  case isFalse hg => simpa using hg

theorem applyCreate_users_ne_nil (s : Store) (now : Nat)
    (n un p em : String) (t : Bool) :
    (applyCreate s now n un p em t).users ≠ [] := by
  unfold applyCreate
  cases h : (UserModel.mk_init s now n un p em t).save_to_db s with
  | ok s' =>
      simp only [save_to_db_ok_users h]
      simp
  | error e =>
      simp only []
      intro hnil
      unfold UserModel.save_to_db at h
      split at h
      case isTrue hany => rw [hnil] at hany; simp at hany
      case isFalse => simp at h

theorem constructedAdmins_of_nonempty (cs : List CreateInput) :
    ∀ s : Store, s.users ≠ [] →
      constructedAdmins s cs = cs.map (fun _ => false) := by
  induction cs with
  | nil => intro s _; rfl
  | cons c cs ih =>
      intro s hne
      have hadm : (UserModel.mk_init s c.now c.name c.username c.password c.email
          c.terms).is_admin = false := by
        show UserModel.is_empty s = false
        unfold UserModel.is_empty
        simpa [List.isEmpty_iff] using hne
      unfold constructedAdmins
      rw [hadm, ih _ (applyCreate_users_ne_nil s c.now c.name c.username c.password
        c.email c.terms)]
      rfl

/-- C2: running any sequence of user creations from the empty store, the
first constructed user gets `is_admin = true` and every user constructed
after it gets `is_admin = false` (`is_admin` is `True if self.is_empty()
else False` at construction time). -/
theorem first_user_is_admin_rest_are_not (c : CreateInput) (cs : List CreateInput) :
    constructedAdmins emptyStore (c :: cs) = true :: cs.map (fun _ => false) := by
  unfold constructedAdmins
  have h1 : (UserModel.mk_init emptyStore c.now c.name c.username c.password c.email
      c.terms).is_admin = true := rfl
  rw [h1, constructedAdmins_of_nonempty cs _
    (applyCreate_users_ne_nil emptyStore c.now c.name c.username c.password c.email
      c.terms)]

/-- C3: deleting a persisted user removes every attached
`PersonalBackground` and `UserExtension` row (cascade `all,delete`),
while every `Organization` row survives (the table keeps its length)
and any organization that was associated with the deleted user is left
with no associated user. -/
theorem delete_cascades_background_extension_detaches_organization
    (s : Store) (u : UserModel) (i : Nat) (hid : u.id = some i) :
    (∀ b ∈ (u.delete_from_db s).backgrounds, b.user_id ≠ i) ∧
    (∀ e ∈ (u.delete_from_db s).user_extensions, e.user_id ≠ i) ∧
    (u.delete_from_db s).organizations.length = s.organizations.length ∧
    (∀ o ∈ s.organizations, o.rep_id = some i →
      ({ o with rep_id := none } : OrganizationModel) ∈ (u.delete_from_db s).organizations) ∧
    (∀ o ∈ s.organizations, o.rep_id ≠ some i → o ∈ (u.delete_from_db s).organizations) := by
  refine ⟨?_, ?_, ?_, ?_, ?_⟩
  · intro b hb
    have := (List.mem_filter.mp hb).2
    simp [hid] at this
    exact fun he => this (by rw [he])
  · intro e he
    have := (List.mem_filter.mp he).2
    simp [hid] at this
    exact fun hq => this (by rw [hq])
  · exact List.length_map _ _
  · intro o ho hrep
    refine List.mem_map.mpr ⟨o, ho, ?_⟩
    rw [hid, hrep]
    simp
  · intro o ho hrep
    refine List.mem_map.mpr ⟨o, ho, ?_⟩
    rw [hid, if_neg (by simpa using hrep)]

def attachedStore : Store :=
  ⟨[su1], [⟨10, 1⟩], [⟨20, some 1⟩, ⟨21, some 5⟩], [⟨30, 1⟩]⟩

/-- Witness for C3: deleting the only user of a store that has an
attached background, organization and extension. -/
theorem delete_cascades_witness :
    (∀ b ∈ (su1.delete_from_db attachedStore).backgrounds, b.user_id ≠ 1) ∧
    (∀ e ∈ (su1.delete_from_db attachedStore).user_extensions, e.user_id ≠ 1) ∧
    (su1.delete_from_db attachedStore).organizations.length =
      attachedStore.organizations.length ∧
    (∀ o ∈ attachedStore.organizations, o.rep_id = some 1 →
      ({ o with rep_id := none } : OrganizationModel) ∈
        (su1.delete_from_db attachedStore).organizations) ∧
    (∀ o ∈ attachedStore.organizations, o.rep_id ≠ some 1 →
      o ∈ (su1.delete_from_db attachedStore).organizations) :=
  delete_cascades_background_extension_detaches_organization attachedStore su1 1 rfl

/-- No two persisted users share a username, and none share an email. -/
def distinctCred (s : Store) : Prop :=
  s.users.Pairwise (fun a b => a.username ≠ b.username ∧ a.email ≠ b.email)

/-- C4: in every reachable store state the persisted users have pairwise
distinct usernames and pairwise distinct emails; saving a duplicate is
rejected by the unique constraints and never yields a store holding
both. -/
theorem reachable_usernames_emails_unique {s : Store} (h : Reach s) :
    distinctCred s := by
  induction h with
  | empty => simp [distinctCred, emptyStore]
  | create now n un p em t hr hsave ih =>
      unfold distinctCred at *
      rw [save_to_db_ok_users hsave, List.pairwise_append]
      refine ⟨ih, List.pairwise_singleton _ _, ?_⟩
      intro a ha b hb
      have hg := save_to_db_error_guard hsave
      rw [List.any_eq_false] at hg
      have hga := hg a ha
      simp only [Bool.or_eq_true, beq_iff_eq, not_or] at hga
      simp only [List.mem_singleton] at hb
      subst hb
      exact ⟨by simpa using hga.1, by simpa using hga.2⟩
  | setPassword i p hr ih =>
      unfold distinctCred updatePassword at *
      have hu : ∀ a : UserModel,
          (if a.id == some i then a.set_password p else a).username = a.username := by
        intro a
        split <;> rfl
      have he : ∀ a : UserModel,
          (if a.id == some i then a.set_password p else a).email = a.email := by
        intro a
        split <;> rfl
      refine List.Pairwise.map _ (fun a b hab => ?_) ih
      exact ⟨by rw [hu, hu]; exact hab.1, by rw [he, he]; exact hab.2⟩
  | delete u hr ih =>
      unfold distinctCred UserModel.delete_from_db at *
      exact List.Pairwise.sublist (List.filter_sublist _) ih

def oneUserStore : Store :=
  applyCreate emptyStore 3 "Gamma" "u3" "p3" "e3@example.com" true

/-- Witness for C4 at a concrete reachable store. -/
theorem reachable_usernames_emails_unique_witness : distinctCred oneUserStore :=
  reachable_usernames_emails_unique
    (Reach.create 3 "Gamma" "u3" "p3" "e3@example.com" true Reach.empty rfl)

/-- C7: the plaintext password is never stored: the constructor and
`set_password` both store exactly the one-way hash (which differs from
the plaintext), and every user row in every reachable store state holds
the hash of some plaintext, never the plaintext itself. -/
theorem password_hash_never_plaintext :
    (∀ (s : Store) (now : Nat) (n un p em : String) (t : Bool),
      (UserModel.mk_init s now n un p em t).password_hash = generate_password_hash p ∧
      (UserModel.mk_init s now n un p em t).password_hash ≠ p) ∧
    (∀ (u : UserModel) (p : String),
      (u.set_password p).password_hash = generate_password_hash p ∧
      (u.set_password p).password_hash ≠ p) ∧
    (∀ s : Store, Reach s → ∀ u ∈ s.users, ∃ p,
      u.password_hash = generate_password_hash p ∧ u.password_hash ≠ p) := by
  have hset : ∀ (u : UserModel) (p : String),
      (u.set_password p).password_hash = generate_password_hash p ∧
      (u.set_password p).password_hash ≠ p := by
    intro u p
    exact ⟨rfl, generate_password_hash_ne_plaintext p⟩
  refine ⟨fun s now n un p em t => hset _ p, hset, ?_⟩
  intro s hs
  induction hs with
  | empty =>
      intro u hu
      simp [emptyStore] at hu
  | create now n un p em t hr hsave ih =>
      intro u hu
      rw [save_to_db_ok_users hsave] at hu
      rcases List.mem_append.mp hu with hmem | hmem
      · exact ih u hmem
      · simp only [List.mem_singleton] at hmem
        subst hmem
        exact ⟨p, rfl, generate_password_hash_ne_plaintext p⟩
  | setPassword i p hr ih =>
      intro u hu
      unfold updatePassword at hu
      rcases List.mem_map.mp hu with ⟨a, ha, rfl⟩
      by_cases hcond : (a.id == some i) = true
      · rw [if_pos hcond]
        exact ⟨p, rfl, generate_password_hash_ne_plaintext p⟩
      · rw [if_neg hcond]
        exact ih a ha
  | delete u hr ih =>
      intro v hv
      unfold UserModel.delete_from_db at hv
      exact ih v (List.mem_filter.mp hv).1

def gammaUser : UserModel :=
  { UserModel.mk_init emptyStore 3 "Gamma" "u3" "p3" "e3@example.com" true with
      id := some 1 }

/-- Witness for C7 at a concrete reachable store and its single user. -/
theorem password_hash_never_plaintext_witness :
    ∃ p, gammaUser.password_hash = generate_password_hash p ∧
      gammaUser.password_hash ≠ p :=
  password_hash_never_plaintext.2.2 oneUserStore
    (Reach.create 3 "Gamma" "u3" "p3" "e3@example.com" true Reach.empty rfl)
    gammaUser (by decide)

end BridgeInTech
